import Mathlib

/-!
Shallow embedding of the Sensu Go alert service (`services/sensugo`):
configuration, atomic config update, the `Alert` delivery function
(severity-to-status mapping, namespace and handler-list fallback, HTTP POST
with the non-2xx logged-but-not-failed policy), the per-route binding
(`handler.Handle`) with its entity-resolution rule, and the self-test path.

Effects are made explicit: the HTTP layer is a pair of oracles (request
creation and transport), the diagnostics sink is a list of recorded entries,
and the stored configuration is threaded as explicit state.
-/

namespace SensuGo

/-- Association lists standing in for Go `map[string]string` values
(labels and event tag mappings). -/
abbrev KVList := List (String × String)

/-- First-match lookup in a tag mapping, the embedding of Go
`event.Data.Tags[key]` with its `ok` flag. -/
def lookupTag (tags : KVList) (key : String) : Option String :=
  match tags with
  | [] => none
  | (k, v) :: rest => if k = key then some v else lookupTag rest key

/-- `Config` from config.go: connection defaults for the Sensu Go backend. -/
structure Config where
  Enabled : Bool
  URL : String
  Token : String
  Namespace : String
  Handlers : List String
deriving Repr, DecidableEq

/-- `NewConfig` from config.go: the zero-valued configuration. -/
def NewConfig : Config :=
  { Enabled := false, URL := "", Token := "", Namespace := "", Handlers := [] }

/-- `Config.Validate` from config.go: an error value is produced exactly when
the service is enabled but no backend URL is given. -/
def Config.Validate (c : Config) : Option String :=
  if c.Enabled ∧ c.URL = "" then some "must specify backend URL" else none

/-- Modelled from the spec: the severity enumeration `alert.Level` of the
external alert package — OK, Info, Warning, Critical, plus a catch-all
`unknown` standing for any other level value (the `default` arm of the
switch in `Service.Alert`). -/
inductive Level where
  | OK
  | Info
  | Warning
  | Critical
  | unknown
deriving Repr, DecidableEq

/-- Modelled from the spec: a dynamically-typed (`interface\x7b\x7d`) payload handed
to `Service.Update` is either an actual `Config` value or a value of some
other dynamic type, identified here by its type name. -/
inductive Payload where
  | config (c : Config)
  | other (typeName : String)
deriving Repr, DecidableEq

/-- `Service.Update` from service.go: takes the currently stored configuration
and the list of new payloads; returns the configuration stored afterwards and
an optional error. A payload count other than one is a count-mismatch error;
a single payload of the wrong dynamic type is a type error; a single `Config`
payload replaces the stored configuration wholesale. -/
def Service.Update (stored : Config) (newConfig : List Payload) : Config × Option String :=
  if newConfig.length ≠ 1 then
    (stored, some ("expected only one new config object, got " ++ toString newConfig.length))
  else
    match newConfig with
    | [Payload.config c] => (c, none)
    | [Payload.other t] =>
        (stored, some ("expected config object to be of type sensugo.Config, got " ++ t))
    | _ =>
        (stored, some ("expected only one new config object, got " ++ toString newConfig.length))

/-- Metadata of the wire event's entity section (`PostEvent.Entity.Metadata`). -/
structure EntityMetadata where
  Name : String
  Namespace : String
  Labels : KVList
deriving Repr, DecidableEq

/-- Entity section of the wire event (`PostEvent.Entity`). -/
structure EventEntity where
  EntityClass : String
  Metadata : EntityMetadata
deriving Repr, DecidableEq

/-- Metadata of the wire event's check section (`PostEvent.Check.Metadata`). -/
structure CheckMetadata where
  Name : String
  Labels : KVList
deriving Repr, DecidableEq

/-- Check section of the wire event (`PostEvent.Check`). -/
structure EventCheck where
  Output : String
  Status : Int
  Metadata : CheckMetadata
  Issued : Int
  Executed : Int
  Handlers : List String
deriving Repr, DecidableEq

/-- `PostEvent` from service.go: the event sent over the HTTP POST request to
the sensu-go backend. -/
structure PostEvent where
  Entity : EventEntity
  Check : EventCheck
deriving Repr, DecidableEq

/-- One entry recorded on the diagnostics sink: the message, the error passed
alongside it (if any), and the structured key-value context. -/
structure DiagEntry where
  msg : String
  errMsg : Option String
  kvs : KVList
deriving Repr, DecidableEq

/-- The outbound HTTP request as assembled by `Service.Alert`: POST to the
configured URL with `Authorization` and `Content-Type` headers and the
serialized event as body. -/
structure HttpRequest where
  method : String
  url : String
  authorization : String
  contentType : String
  body : PostEvent
deriving Repr, DecidableEq

/-- Result of handing a request to the HTTP client: either a transport-level
failure or a response carrying a status code. -/
inductive PostResult where
  | transportError (m : String)
  | response (statusCode : Nat)
deriving Repr, DecidableEq

/-- Everything observable about one `Service.Alert` call: the returned error
(`none` is Go's `nil`/success), the wire event that was built (if the call
got that far), the request handed to the HTTP client (if a network call was
performed), and the diagnostics recorded. -/
structure AlertOutcome where
  err : Option String
  eventBuilt : Option PostEvent
  request : Option HttpRequest
  diags : List DiagEntry
deriving Repr, DecidableEq

/-- The wire-event construction block of `Service.Alert` (status switch,
entity/check population, namespace and handler-list fallback). -/
def buildEvent (c : Config) (now : Int) (check entity message ns : String)
    (handlers : List String) (labels : KVList) (level : Level) : PostEvent :=
  let status : Int :=
    match level with
    | Level.OK => 0
    | Level.Info => 0
    | Level.Warning => 1
    | Level.Critical => 2
    | Level.unknown => 3
  { Entity :=
      { EntityClass := "proxy"
        Metadata :=
          { Name := entity
            Namespace := if ns ≠ "" then ns else c.Namespace
            Labels := labels } }
    Check :=
      { Output := message
        Status := status
        Metadata := { Name := check, Labels := labels }
        Issued := now
        Executed := now
        Handlers := if handlers.length > 0 then handlers else c.Handlers } }

/-- `Service.Alert` from service.go. `newRequestErr` is the oracle for
`http.NewRequest` (an error for a given URL, or `none` on success) and
`doPost` the oracle for `httpClient.Do`. Marshalling the event — a struct of
plain strings, ints and maps — cannot fail, so the dead `json.Marshal` error
branch has no counterpart. A non-2xx response is recorded on the diagnostics
sink with the code as context but the call still returns success. -/
def Service.Alert (c : Config)
    (newRequestErr : String → Option String) (doPost : HttpRequest → PostResult)
    (now : Int) (check entity message ns : String)
    (handlers : List String) (labels : KVList) (level : Level) : AlertOutcome :=
  if !c.Enabled then
    { err := some "service is not enabled", eventBuilt := none, request := none, diags := [] }
  else
    let event := buildEvent c now check entity message ns handlers labels level
    match newRequestErr c.URL with
    | some m =>
        { err := some ("failed to create POST request: " ++ m)
          eventBuilt := some event
          request := none
          diags := [] }
    | none =>
        let req : HttpRequest :=
          { method := "POST"
            url := c.URL
            authorization := c.Token
            contentType := "application/json"
            body := event }
        match doPost req with
        | PostResult.transportError m =>
            { err := some m
              eventBuilt := some event
              request := some req
              diags := [{ msg := "Failed to POST to Sensu Go", errMsg := some m, kvs := [] }] }
        | PostResult.response code =>
            { err := none
              eventBuilt := some event
              request := some req
              diags :=
                if code / 100 ≠ 2 then
                  [{ msg := "POST returned non 2xx status code (" ++ toString code ++ ")"
                     errMsg := none
                     kvs := [("code", toString code)] }]
                else [] }

/-- `testOptions` from service.go. -/
structure TestOptions where
  Check : String
  Entity : String
  EntityTag : String
  Message : String
  Namespace : String
  Handlers : List String
  Labels : KVList
  Level : Level
deriving Repr, DecidableEq

/-- `Service.TestOptions` from service.go: the canned self-test options. -/
def Service.TestOptions : TestOptions :=
  { Check := "testName"
    Entity := "testEntity"
    EntityTag := "testEntityTag"
    Message := "testMessage"
    Namespace := "test"
    Handlers := []
    Labels := []
    Level := Level.Critical }

/-- `Service.Test` from service.go: forwards the options' fields to `Alert`.
(The dynamic type check on the options value is statically discharged here.) -/
def Service.Test (c : Config)
    (newRequestErr : String → Option String) (doPost : HttpRequest → PostResult)
    (now : Int) (o : SensuGo.TestOptions) : AlertOutcome :=
  Service.Alert c newRequestErr doPost now o.Check o.Entity o.Message o.Namespace
    o.Handlers o.Labels o.Level

/-- `HandlerConfig` from service.go: static per-route-binding overrides. -/
structure HandlerConfig where
  URL : String
  Namespace : String
  Labels : KVList
  Handlers : List String
  Check : String
  Entity : String
  EntityTag : String
deriving Repr, DecidableEq

/-- Modelled from the spec: the inbound `alert.Event` from the host engine,
exposing a state identifier, state message, state severity level, and a tag
mapping used for entity-tag resolution. -/
structure Event where
  stateID : String
  stateMessage : String
  stateLevel : Level
  tags : KVList
deriving Repr, DecidableEq

/-- The entity-resolution block at the top of `handler.Handle`: the static
entity name, unless it is empty and an entity-tag key is set and present in
the event's tags, in which case the tag's value. -/
def handler.resolveEntity (hc : HandlerConfig) (event : Event) : String :=
  if hc.Entity = "" ∧ hc.EntityTag ≠ "" then
    match lookupTag event.tags hc.EntityTag with
    | some e => e
    | none => hc.Entity
  else hc.Entity

/-- Everything observable about one `handler.Handle` call: the underlying
`Alert` outcome plus the handler-level diagnostics (the entry recorded when
`Alert` returns an error, which `Handle` otherwise swallows). -/
structure HandleOutcome where
  alertOutcome : AlertOutcome
  handlerDiags : List DiagEntry
deriving Repr, DecidableEq

/-- `handler.Handle` from service.go: resolves the entity, calls
`Service.Alert` with the per-route overrides, and logs (but does not
propagate) any error `Alert` returns. -/
def handler.Handle (c : Config) (hc : HandlerConfig)
    (newRequestErr : String → Option String) (doPost : HttpRequest → PostResult)
    (now : Int) (event : Event) : HandleOutcome :=
  let entity := handler.resolveEntity hc event
  let out := Service.Alert c newRequestErr doPost now
    event.stateID entity event.stateMessage hc.Namespace hc.Handlers hc.Labels event.stateLevel
  { alertOutcome := out
    handlerDiags :=
      match out.err with
      | some e => [{ msg := "failed to send event to Sensu Go", errMsg := some e, kvs := [] }]
      | none => [] }

/-- On an enabled configuration, `Service.Alert` always builds the wire event,
whatever the HTTP layer does. -/
theorem alert_enabled_eventBuilt (c : Config)
    (nr : String → Option String) (dp : HttpRequest → PostResult)
    (now : Int) (check entity message ns : String)
    (handlers : List String) (labels : KVList) (level : Level)
    (hen : c.Enabled = true) :
    (Service.Alert c nr dp now check entity message ns handlers labels level).eventBuilt
      = some (buildEvent c now check entity message ns handlers labels level) := by
  unfold Service.Alert
  simp only [hen, Bool.not_true, Bool.false_eq_true, if_false]
  cases nr c.URL with
  | some m => rfl
  | none => cases dp _ <;> rfl

/-- C1: for every call to `Service.Alert` in which the HTTP POST completes at
the transport level but the response status code is not in the 2xx range,
`Alert` records exactly one diagnostic entry carrying the status code as
structured context and still returns success (nil error) to the caller. -/
theorem alert_non2xx_logged_not_failed (c : Config)
    (nr : String → Option String) (dp : HttpRequest → PostResult)
    (now : Int) (check entity message ns : String)
    (handlers : List String) (labels : KVList) (level : Level) (code : Nat)
    (hen : c.Enabled = true)
    (hnr : nr c.URL = none)
    (hdp : ∀ req, dp req = PostResult.response code)
    (hcode : code / 100 ≠ 2) :
    (Service.Alert c nr dp now check entity message ns handlers labels level).err = none ∧
    (Service.Alert c nr dp now check entity message ns handlers labels level).diags
      = [{ msg := "POST returned non 2xx status code (" ++ toString code ++ ")"
           errMsg := none
           kvs := [("code", toString code)] }] := by
  unfold Service.Alert
  simp only [hen, Bool.not_true, Bool.false_eq_true, if_false, hnr, hdp]
  simp [hcode]

/-- Witness for `alert_non2xx_logged_not_failed` at a concrete 500 response. -/
theorem alert_non2xx_logged_not_failed_witness :
    (Service.Alert
        { Enabled := true, URL := "http://sensu:3031", Token := "tok",
          Namespace := "default", Handlers := ["h1"] }
        (fun _ => none) (fun _ => PostResult.response 500) 7
        "chk" "ent" "msg" "" [] [] Level.Warning).err = none ∧
    (Service.Alert
        { Enabled := true, URL := "http://sensu:3031", Token := "tok",
          Namespace := "default", Handlers := ["h1"] }
        (fun _ => none) (fun _ => PostResult.response 500) 7
        "chk" "ent" "msg" "" [] [] Level.Warning).diags
      = [{ msg := "POST returned non 2xx status code (500)"
           errMsg := none
           kvs := [("code", "500")] }] :=
  alert_non2xx_logged_not_failed
    { Enabled := true, URL := "http://sensu:3031", Token := "tok",
      Namespace := "default", Handlers := ["h1"] }
    (fun _ => none) (fun _ => PostResult.response 500) 7
    "chk" "ent" "msg" "" [] [] Level.Warning 500
    rfl rfl (fun _ => rfl) (by decide)

/-- C2: the status integer placed in the outbound event is 0 for OK, 0 for
Info, 1 for Warning, 2 for Critical, and 3 for any other level value. -/
theorem alert_status_mapping (c : Config)
    (nr : String → Option String) (dp : HttpRequest → PostResult)
    (now : Int) (check entity message ns : String)
    (handlers : List String) (labels : KVList) (level : Level)
    (hen : c.Enabled = true) :
    ∃ ev, (Service.Alert c nr dp now check entity message ns handlers labels level).eventBuilt
        = some ev ∧
      (level = Level.OK → ev.Check.Status = 0) ∧
      (level = Level.Info → ev.Check.Status = 0) ∧
      (level = Level.Warning → ev.Check.Status = 1) ∧
      (level = Level.Critical → ev.Check.Status = 2) ∧
      (level = Level.unknown → ev.Check.Status = 3) := by
  refine ⟨_, alert_enabled_eventBuilt c nr dp now check entity message ns handlers labels level hen,
    ?_, ?_, ?_, ?_, ?_⟩ <;> (intro h; subst h; rfl)

/-- Witness for `alert_status_mapping` at the Critical level. -/
theorem alert_status_mapping_witness :
    ∃ ev, (Service.Alert
        { Enabled := true, URL := "u", Token := "t", Namespace := "n", Handlers := [] }
        (fun _ => none) (fun _ => PostResult.response 200) 0
        "c" "e" "m" "" [] [] Level.Critical).eventBuilt = some ev ∧
      (Level.Critical = Level.OK → ev.Check.Status = 0) ∧
      (Level.Critical = Level.Info → ev.Check.Status = 0) ∧
      (Level.Critical = Level.Warning → ev.Check.Status = 1) ∧
      (Level.Critical = Level.Critical → ev.Check.Status = 2) ∧
      (Level.Critical = Level.unknown → ev.Check.Status = 3) :=
  alert_status_mapping
    { Enabled := true, URL := "u", Token := "t", Namespace := "n", Handlers := [] }
    (fun _ => none) (fun _ => PostResult.response 200) 0
    "c" "e" "m" "" [] [] Level.Critical rfl

/-- C3: on a disabled configuration `Service.Alert` returns an error without
building an event or handing any request to the HTTP client. -/
theorem alert_disabled_no_network (c : Config)
    (nr : String → Option String) (dp : HttpRequest → PostResult)
    (now : Int) (check entity message ns : String)
    (handlers : List String) (labels : KVList) (level : Level)
    (hdis : c.Enabled = false) :
    (Service.Alert c nr dp now check entity message ns handlers labels level).err
        = some "service is not enabled" ∧
    (Service.Alert c nr dp now check entity message ns handlers labels level).eventBuilt
        = none ∧
    (Service.Alert c nr dp now check entity message ns handlers labels level).request
        = none := by
  unfold Service.Alert
  simp [hdis]

/-- Witness for `alert_disabled_no_network` on the zero configuration. -/
theorem alert_disabled_no_network_witness :
    (Service.Alert NewConfig (fun _ => none) (fun _ => PostResult.response 200) 0
        "c" "e" "m" "" [] [] Level.OK).err = some "service is not enabled" ∧
    (Service.Alert NewConfig (fun _ => none) (fun _ => PostResult.response 200) 0
        "c" "e" "m" "" [] [] Level.OK).eventBuilt = none ∧
    (Service.Alert NewConfig (fun _ => none) (fun _ => PostResult.response 200) 0
        "c" "e" "m" "" [] [] Level.OK).request = none :=
  alert_disabled_no_network NewConfig (fun _ => none) (fun _ => PostResult.response 200) 0
    "c" "e" "m" "" [] [] Level.OK rfl

/-- C4: the event's namespace is the supplied namespace when non-empty and
otherwise the configuration default, and the event's handler list is the
supplied list when non-empty and otherwise the configuration default, for
all combinations of empty and non-empty overrides and defaults. -/
theorem alert_namespace_handlers_resolution (c : Config)
    (nr : String → Option String) (dp : HttpRequest → PostResult)
    (now : Int) (check entity message ns : String)
    (handlers : List String) (labels : KVList) (level : Level)
    (hen : c.Enabled = true) :
    ∃ ev, (Service.Alert c nr dp now check entity message ns handlers labels level).eventBuilt
        = some ev ∧
      (ns ≠ "" → ev.Entity.Metadata.Namespace = ns) ∧
      (ns = "" → ev.Entity.Metadata.Namespace = c.Namespace) ∧
      (handlers ≠ [] → ev.Check.Handlers = handlers) ∧
      (handlers = [] → ev.Check.Handlers = c.Handlers) := by
  refine ⟨_, alert_enabled_eventBuilt c nr dp now check entity message ns handlers labels level hen,
    ?_, ?_, ?_, ?_⟩
  · intro h; simp [buildEvent, h]
  · intro h; simp [buildEvent, h]
  · intro h; simp [buildEvent, List.length_pos, h]
  · intro h; subst h; simp [buildEvent]

/-- Witness for `alert_namespace_handlers_resolution` with an empty namespace
override and a non-empty handler override. -/
theorem alert_namespace_handlers_resolution_witness :
    ∃ ev, (Service.Alert
        { Enabled := true, URL := "u", Token := "t", Namespace := "defaultNs",
          Handlers := ["dh"] }
        (fun _ => none) (fun _ => PostResult.response 200) 0
        "c" "e" "m" "" ["h1", "h2"] [] Level.OK).eventBuilt = some ev ∧
      ("" ≠ "" → ev.Entity.Metadata.Namespace = "") ∧
      ("" = "" → ev.Entity.Metadata.Namespace = "defaultNs") ∧
      (["h1", "h2"] ≠ ([] : List String) → ev.Check.Handlers = ["h1", "h2"]) ∧
      (["h1", "h2"] = ([] : List String) → ev.Check.Handlers = ["dh"]) :=
  alert_namespace_handlers_resolution
    { Enabled := true, URL := "u", Token := "t", Namespace := "defaultNs",
      Handlers := ["dh"] }
    (fun _ => none) (fun _ => PostResult.response 200) 0
    "c" "e" "m" "" ["h1", "h2"] [] Level.OK rfl

/-- Whenever `Service.Alert` hands a request to the HTTP client, that
request's URL is the service configuration's URL. -/
theorem alert_request_url (c : Config)
    (nr : String → Option String) (dp : HttpRequest → PostResult)
    (now : Int) (check entity message ns : String)
    (handlers : List String) (labels : KVList) (level : Level) (req : HttpRequest)
    (h : (Service.Alert c nr dp now check entity message ns handlers labels level).request
        = some req) :
    req.url = c.URL := by
  unfold Service.Alert at h
  split at h
  · simp at h
  · split at h
    · simp at h
    · dsimp only at h
      split at h <;> (simp at h; rw [← h])

/-- C5: the resolved entity is the binding's static entity name when that is
non-empty; otherwise the value of the configured entity-tag key when present
in the event's tags; otherwise the empty string — and the resolved entity
(empty or not) is what reaches the built wire event, with no error raised by
resolution. -/
theorem handle_entity_resolution (c : Config) (hc : HandlerConfig)
    (nr : String → Option String) (dp : HttpRequest → PostResult)
    (now : Int) (event : Event)
    (hen : c.Enabled = true) :
    (hc.Entity ≠ "" → handler.resolveEntity hc event = hc.Entity) ∧
    (hc.Entity = "" → hc.EntityTag ≠ "" →
      ∀ v, lookupTag event.tags hc.EntityTag = some v →
        handler.resolveEntity hc event = v) ∧
    (hc.Entity = "" →
      (hc.EntityTag = "" ∨ lookupTag event.tags hc.EntityTag = none) →
        handler.resolveEntity hc event = "") ∧
    ∃ ev, ((handler.Handle c hc nr dp now event).alertOutcome).eventBuilt = some ev ∧
        ev.Entity.Metadata.Name = handler.resolveEntity hc event := by
  refine ⟨?_, ?_, ?_, ?_⟩
  · intro h; simp [handler.resolveEntity, h]
  · intro h1 h2 v hv; simp [handler.resolveEntity, h1, h2, hv]
  · intro h1 h
    rcases h with h2 | h2
    · simp [handler.resolveEntity, h1, h2]
    · by_cases h3 : hc.EntityTag = ""
      · simp [handler.resolveEntity, h1, h3]
      · simp [handler.resolveEntity, h1, h2, h3]
  · exact ⟨_, alert_enabled_eventBuilt c nr dp now event.stateID
      (handler.resolveEntity hc event) event.stateMessage hc.Namespace hc.Handlers
      hc.Labels event.stateLevel hen, rfl⟩

/-- Witness for `handle_entity_resolution`: with no static entity and
entity-tag key "host" present in the tags, the resolved entity is the tag's
value. -/
theorem handle_entity_resolution_witness :
    handler.resolveEntity
        { URL := "", Namespace := "", Labels := [], Handlers := [],
          Check := "", Entity := "", EntityTag := "host" }
        { stateID := "s", stateMessage := "m", stateLevel := Level.OK,
          tags := [("host", "db1")] } = "db1" :=
  (handle_entity_resolution
      { Enabled := true, URL := "u", Token := "t", Namespace := "n", Handlers := [] }
      { URL := "", Namespace := "", Labels := [], Handlers := [],
        Check := "", Entity := "", EntityTag := "host" }
      (fun _ => none) (fun _ => PostResult.response 200) 0
      { stateID := "s", stateMessage := "m", stateLevel := Level.OK,
        tags := [("host", "db1")] }
      rfl).2.1 rfl (by decide) "db1" rfl

/-- C6: `Service.Update` rejects any payload list whose length is not one with
a count-mismatch error, and a single `Config` payload replaces the stored
configuration wholesale with success. -/
theorem update_replaces_or_rejects (stored : Config) (payloads : List Payload) :
    (payloads.length ≠ 1 →
      Service.Update stored payloads
        = (stored, some ("expected only one new config object, got "
            ++ toString payloads.length))) ∧
    (∀ c, payloads = [Payload.config c] →
      Service.Update stored payloads = (c, none)) := by
  constructor
  · intro h; simp [Service.Update, h]
  · intro c h; subst h; rfl

/-- Witness for `update_replaces_or_rejects` at an empty payload list and at a
singleton `Config` payload. -/
theorem update_replaces_or_rejects_witness :
    Service.Update NewConfig ([] : List Payload)
      = (NewConfig, some ("expected only one new config object, got "
          ++ toString (List.length ([] : List Payload)))) ∧
    Service.Update NewConfig
        [Payload.config { Enabled := true, URL := "u", Token := "t",
                          Namespace := "n", Handlers := ["h"] }]
      = ({ Enabled := true, URL := "u", Token := "t",
           Namespace := "n", Handlers := ["h"] }, none) :=
  ⟨(update_replaces_or_rejects NewConfig []).1 (by decide),
   (update_replaces_or_rejects NewConfig
      [Payload.config { Enabled := true, URL := "u", Token := "t",
                        Namespace := "n", Handlers := ["h"] }]).2
      { Enabled := true, URL := "u", Token := "t",
        Namespace := "n", Handlers := ["h"] } rfl⟩

/-- C7: `Config.Validate` produces an error exactly when the configuration is
enabled with an empty URL; in particular a disabled configuration validates
for any URL. -/
theorem validate_error_iff (c : Config) :
    ((Config.Validate c).isSome = true ↔ (c.Enabled = true ∧ c.URL = "")) ∧
    (c.Enabled = false → Config.Validate c = none) := by
  constructor
  · by_cases h : c.Enabled = true ∧ c.URL = "" <;> simp [Config.Validate, h]
  · intro h; simp [Config.Validate, h]

/-- Witness for `validate_error_iff`: the disabled zero configuration
validates. -/
theorem validate_error_iff_witness : Config.Validate NewConfig = none :=
  (validate_error_iff NewConfig).2 rfl

/-- C8: delivery through a route binding always POSTs to the service
configuration's URL; the binding's URL-override field is never consulted, so
changing it changes nothing about the outcome. -/
theorem handle_ignores_handler_url (c : Config) (hc : HandlerConfig)
    (nr : String → Option String) (dp : HttpRequest → PostResult)
    (now : Int) (event : Event) (u : String) :
    (∀ req, ((handler.Handle c hc nr dp now event).alertOutcome).request = some req →
        req.url = c.URL) ∧
    handler.Handle c { hc with URL := u } nr dp now event
      = handler.Handle c hc nr dp now event := by
  constructor
  · intro req hreq
    exact alert_request_url c nr dp now event.stateID
      (handler.resolveEntity hc event) event.stateMessage hc.Namespace hc.Handlers
      hc.Labels event.stateLevel req hreq
  · rfl

/-- Witness for `handle_ignores_handler_url`: a non-empty URL override on the
binding leaves the outcome unchanged. -/
theorem handle_ignores_handler_url_witness :
    handler.Handle
        { Enabled := true, URL := "http://svc", Token := "t", Namespace := "n",
          Handlers := [] }
        { URL := "http://other", Namespace := "", Labels := [], Handlers := [],
          Check := "", Entity := "e", EntityTag := "" }
        (fun _ => none) (fun _ => PostResult.response 200) 0
        { stateID := "s", stateMessage := "m", stateLevel := Level.OK, tags := [] }
      = handler.Handle
        { Enabled := true, URL := "http://svc", Token := "t", Namespace := "n",
          Handlers := [] }
        { URL := "", Namespace := "", Labels := [], Handlers := [],
          Check := "", Entity := "e", EntityTag := "" }
        (fun _ => none) (fun _ => PostResult.response 200) 0
        { stateID := "s", stateMessage := "m", stateLevel := Level.OK, tags := [] } :=
  (handle_ignores_handler_url
      { Enabled := true, URL := "http://svc", Token := "t", Namespace := "n",
        Handlers := [] }
      { URL := "", Namespace := "", Labels := [], Handlers := [],
        Check := "", Entity := "e", EntityTag := "" }
      (fun _ => none) (fun _ => PostResult.response 200) 0
      { stateID := "s", stateMessage := "m", stateLevel := Level.OK, tags := [] }
      "http://other").2

/-- C9: the self-test with the canned options on an enabled configuration
builds a wire event with check status 2, entity metadata name "testEntity"
and check output "testMessage". -/
theorem test_builds_canned_event (c : Config)
    (nr : String → Option String) (dp : HttpRequest → PostResult) (now : Int)
    (hen : c.Enabled = true) :
    ∃ ev, (Service.Test c nr dp now Service.TestOptions).eventBuilt = some ev ∧
      ev.Check.Status = 2 ∧
      ev.Entity.Metadata.Name = "testEntity" ∧
      ev.Check.Output = "testMessage" := by
  exact ⟨_, alert_enabled_eventBuilt c nr dp now "testName" "testEntity" "testMessage"
    "test" [] [] Level.Critical hen, rfl, rfl, rfl⟩

/-- Witness for `test_builds_canned_event` at a concrete enabled
configuration. -/
theorem test_builds_canned_event_witness :
    ∃ ev, (Service.Test
        { Enabled := true, URL := "u", Token := "t", Namespace := "n", Handlers := ["h"] }
        (fun _ => none) (fun _ => PostResult.response 200) 5
        Service.TestOptions).eventBuilt = some ev ∧
      ev.Check.Status = 2 ∧
      ev.Entity.Metadata.Name = "testEntity" ∧
      ev.Check.Output = "testMessage" :=
  test_builds_canned_event
    { Enabled := true, URL := "u", Token := "t", Namespace := "n", Handlers := ["h"] }
    (fun _ => none) (fun _ => PostResult.response 200) 5 rfl

/-- C10: whenever `Service.Update` returns an error, the stored configuration
is unchanged. -/
theorem update_error_preserves_config (stored : Config) (payloads : List Payload)
    (h : (Service.Update stored payloads).2.isSome = true) :
    (Service.Update stored payloads).1 = stored := by
  rcases payloads with _ | ⟨p1, _ | ⟨p2, rest⟩⟩
  · rfl
  · rcases p1 with c | t
    · simp [Service.Update] at h
    · rfl
  · rfl

/-- Witness for `update_error_preserves_config` at an empty payload list. -/
theorem update_error_preserves_config_witness :
    (Service.Update NewConfig ([] : List Payload)).1 = NewConfig :=
  update_error_preserves_config NewConfig [] rfl

end SensuGo
